import Mathlib

/-!
Verification development for the download orchestrator script
(`scripts/download_video.py`).

The script is configuration-and-glue code over an external retrieval
library (yt-dlp).  We embed it shallowly:

* the filesystem is a finite map from path strings to byte sizes plus a
  set of directories (`FS`);
* the external retrieval library is an oracle (`RetrEnv`) fixing the
  outcome of the metadata probe, the download call, the prepared output
  filename and the filesystem state after a successful download;
* side effects of the orchestrator itself (directory creation, the
  option dictionary handed to the library, the remediation-guidance
  lines printed on known errors) are collected in an `Effects` record;
* `utils` helpers that live outside this repository snapshot
  (`validate_url`, `ensure_directory`, `format_file_size`) are either
  kept abstract in the environment or modelled from the spec, as marked.
-/

/-- A model filesystem: files as an association list from full path
strings to byte sizes, plus the set of existing directories. -/
structure FS where
  files : List (String × Nat)
  dirs : List String
deriving Repr, DecidableEq

def FS.fileExists (fs : FS) (p : String) : Bool :=
  (fs.files.lookup p).isSome

def FS.sizeOf (fs : FS) (p : String) : Nat :=
  (fs.files.lookup p).getD 0

def FS.addDir (fs : FS) (d : String) : FS :=
  { fs with dirs := if fs.dirs.contains d then fs.dirs else d :: fs.dirs }

/-- Joining a directory and a file name, as `Path.__truediv__` does for a
directory path without a trailing separator. -/
def pathJoin (dir name : String) : String := dir ++ "/" ++ name

/-- A `pathlib.Path` to a file, kept in the decomposed form
`parent / (stem ++ suffix)` where `suffix` is the final extension
(including its leading dot, or empty), matching `Path.stem` and
`Path.suffix`.  `Path.with_suffix` replaces the final suffix. -/
structure PyPath where
  parent : String
  stem : String
  suffix : String
deriving Repr, DecidableEq

def PyPath.withSuffix (p : PyPath) (s : String) : PyPath :=
  { p with suffix := s }

def PyPath.toStr (p : PyPath) : String :=
  p.parent ++ "/" ++ p.stem ++ p.suffix

/-- Does the first character list start with the second? -/
def startsWithL : List Char → List Char → Bool
  | _, [] => true
  | [], _ :: _ => false
  | c :: s, p :: ps => c == p && startsWithL s ps

/-- Does the first character list contain the second as a contiguous
run? -/
def containsL : List Char → List Char → Bool
  | [], p => startsWithL [] p
  | c :: s, p => startsWithL (c :: s) p || containsL s p

/-- Substring containment, the model of the Python `in` operator on
strings. -/
def strContains (s pat : String) : Bool :=
  containsL s.data pat.data

/-- Modelled from the spec: `ensure_directory` from the `utils` module
(not under the repository snapshot) creates the output directory if
absent and returns it. -/
def ensure_directory (fs : FS) (d : String) : FS × String :=
  (fs.addDir d, d)

/-- The metadata record returned by `ydl.extract_info`; the script reads
the keys `title`, `duration` and `id` with `.get` defaults, so each is
optional here. -/
structure Info where
  title : Option String
  duration : Option Nat
  id : Option String
deriving Repr, DecidableEq

/-- Oracle for the external retrieval library for one invocation:
the outcome of the metadata probe (`extract_info` with `download=False`),
the outcome of the download call (`extract_info` with `download=True`),
the path `ydl.prepare_filename` resolves for the downloaded video, and
the filesystem state after a successful download (the library, not the
orchestrator, writes the media and subtitle files). -/
structure RetrEnv where
  probe : Except String Info
  download : Except String Info
  prepared : PyPath
  fsAfter : FS

/-- The ambient environment of one `download_video` run.  `validate_url`
is the URL-shape check from the `utils` module (not under the repository
snapshot); the spec describes it only as host/path pattern matching, so
it stays abstract. -/
structure Env where
  validate_url : String → Bool
  cwd : String
  fs : FS
  retr : RetrEnv

/-- The `ydl_opts` dictionary built by `download_video`, field for
field.  Exactly one of `cookiefile` / `cookiesfrombrowser` is set. -/
structure YdlOpts where
  outtmpl : String
  writesubtitles : Bool
  writeautomaticsub : Bool
  subtitleslangs : List String
  subtitlesformat : String
  writethumbnail : Bool
  quiet : Bool
  no_warnings : Bool
  format : String
  merge_output_format : String
  cookiefile : Option String
  cookiesfrombrowser : Option (List String)
deriving Repr, DecidableEq

/-- Errors `download_video` raises: `ValueError` for an invalid URL
(carrying the URL), and any exception escaping the retrieval block,
re-raised by the bare `raise` (carrying the original message). -/
inductive DlError where
  | invalidURL (url : String)
  | downloadFailed (msg : String)
deriving Repr, DecidableEq

def DlError.msg : DlError → String
  | .invalidURL u => "Invalid YouTube URL: " ++ u
  | .downloadFailed m => m

/-- The result dictionary returned by `download_video`. -/
structure DownloadResult where
  video_path : String
  subtitle_path : Option String
  title : String
  duration : Nat
  file_size : Nat
  video_id : String
deriving Repr, DecidableEq

/-- Trace of the orchestrator's own observable side effects:
directories passed to `ensure_directory`, the options dictionary handed
to `yt_dlp.YoutubeDL` (none if never constructed), the remediation
guidance lines printed by the `except` handler, and the filesystem as
known at return. -/
structure Effects where
  dirsEnsured : List String
  opts : Option YdlOpts
  guidance : List String
  fs : FS
deriving Repr, DecidableEq

/-- The two-step `cookies.txt` lookup: prefer the output directory,
fall back to the current working directory. -/
def cookieChoice (fs : FS) (cwd outDir : String) : String :=
  let cookies_file := pathJoin outDir "cookies.txt"
  if fs.fileExists cookies_file then cookies_file
  else pathJoin cwd "cookies.txt"

/-- The `ydl_opts` dictionary: base configuration plus the cookie
strategy (`cookiefile` if the chosen `cookies.txt` exists, otherwise
extraction from the Chrome browser store). -/
def mkOpts (fs : FS) (cwd outDir : String) : YdlOpts :=
  let cookies_file := cookieChoice fs cwd outDir
  { outtmpl := pathJoin outDir "%(id)s.%(ext)s"
    writesubtitles := true
    writeautomaticsub := true
    subtitleslangs := ["en"]
    subtitlesformat := "vtt"
    writethumbnail := false
    quiet := false
    no_warnings := false
    format := "bv*+ba/b"
    merge_output_format := "mp4"
    cookiefile := if fs.fileExists cookies_file then some cookies_file else none
    cookiesfrombrowser := if fs.fileExists cookies_file then none else some ["chrome"] }

/-- The known error substrings that trigger the remediation guidance. -/
def isKnownError (msg : String) : Bool :=
  strContains msg "Sign in to confirm" ||
  strContains msg "Requested format is not available" ||
  strContains msg "Only images are available"

/-- The remediation guidance lines printed by the `except` handler for a
known error (the 💡 block). -/
def guidanceLines (outDir : String) : List String :=
  ["\n💡 建议解决方案:",
   "1. 确保 Chrome 浏览器已关闭（yt-dlp 需要访问 Cookie 数据库）",
   "2. 推荐：手动导出 Cookies 文件",
   "   a. 在 Chrome 安装 \x27Get cookies.txt LOCALLY\x27 插件",
   "   b. 访问 YouTube 并登录",
   "   c. 点击插件导出 cookies.txt",
   "   d. 将文件保存到: " ++ outDir ++ "/cookies.txt",
   "   e. 重新运行此脚本"]

/-- The ordered suffix pattern list of the subtitle-discovery loop. -/
def subtitle_exts : List String := [".en.vtt", ".vtt"]

/-- One iteration of the subtitle-discovery loop: try
`video_path.with_suffix(ext)`; if that file is absent fall back to
`video_path.parent / (stem ++ ".en.vtt")`; accept the candidate if it
exists. -/
def subtitleStep (fs : FS) (vp : PyPath) (ext : String) : Option PyPath :=
  let potential_sub := vp.withSuffix ext
  let potential_sub :=
    if fs.fileExists potential_sub.toStr = false then
      { parent := vp.parent, stem := vp.stem, suffix := ".en.vtt" : PyPath }
    else potential_sub
  if fs.fileExists potential_sub.toStr then some potential_sub else none

/-- The subtitle-discovery loop: run the iterations in order, binding
`subtitle_path` to the first accepted candidate (`break`). -/
def subtitleLoop (fs : FS) (vp : PyPath) : List String → Option PyPath
  | [] => none
  | ext :: rest =>
    match subtitleStep fs vp ext with
    | some p => some p
    | none => subtitleLoop fs vp rest

def findSubtitle (fs : FS) (vp : PyPath) : Option PyPath :=
  subtitleLoop fs vp subtitle_exts

/-- The body of the `try` block after the options are built: probe for
metadata, download, resolve the video path, discover the subtitle file,
measure the file size, and fail if the video file is absent.  Errors are
the exception messages that the `except` handler receives. -/
def tryBody (env : Env) : Except String (DownloadResult × FS) :=
  match env.retr.probe with
  | .error e => .error e
  | .ok info =>
    let title := info.title.getD "Unknown"
    let duration := info.duration.getD 0
    let video_id := info.id.getD "unknown"
    match env.retr.download with
    | .error e => .error e
    | .ok _info2 =>
      let fs2 := env.retr.fsAfter
      let video_path := env.retr.prepared
      let subtitle_path := findSubtitle fs2 video_path
      let file_size :=
        if fs2.fileExists video_path.toStr then fs2.sizeOf video_path.toStr else 0
      if fs2.fileExists video_path.toStr = false then
        .error "Video file not found after download"
      else
        .ok ({ video_path := video_path.toStr
               subtitle_path := subtitle_path.map PyPath.toStr
               title := title
               duration := duration
               file_size := file_size
               video_id := video_id }, fs2)

/-- The orchestrator `download_video(url, output_dir)`: validate the
URL, resolve and create the output directory, select the cookie source,
build the options, run the retrieval block, and on an exception print
guidance for known errors and re-raise.  Returns the Python result or
error together with the side-effect trace. -/
def download_video (env : Env) (url : String) (output_dir : Option String) :
    Except DlError DownloadResult × Effects :=
  if env.validate_url url = false then
    (.error (.invalidURL url),
     { dirsEnsured := [], opts := none, guidance := [], fs := env.fs })
  else
    let outDir0 := match output_dir with
      | none => env.cwd
      | some d => d
    let ens := ensure_directory env.fs outDir0
    let fs1 := ens.1
    let outDir := ens.2
    let opts := mkOpts fs1 env.cwd outDir
    match tryBody env with
    | .ok (result, fs2) =>
      (.ok result,
       { dirsEnsured := [outDir0], opts := some opts, guidance := [], fs := fs2 })
    | .error msg =>
      (.error (.downloadFailed msg),
       { dirsEnsured := [outDir0], opts := some opts
         guidance := if isKnownError msg then guidanceLines outDir else []
         fs := fs1 })

def hexDigit (n : Nat) : Char :=
  if n < 10 then Char.ofNat (48 + n) else Char.ofNat (87 + n)

def hex4 (n : Nat) : String :=
  String.mk [hexDigit (n / 4096 % 16), hexDigit (n / 256 % 16),
             hexDigit (n / 16 % 16), hexDigit (n % 16)]

/-- Escaping of one character under `json.dumps` with
`ensure_ascii=False`: backslash, quote and control characters are
escaped; everything else, non-ASCII included, passes through
literally. -/
def jsonEscapeChar (c : Char) : String :=
  if c = '\\' then "\\\\"
  else if c = '"' then "\\\""
  else if c = '\n' then "\\n"
  else if c = '\t' then "\\t"
  else if c = '\r' then "\\r"
  else if c = '\x08' then "\\b"
  else if c = '\x0c' then "\\f"
  else if c.toNat < 32 then "\\u" ++ hex4 c.toNat
  else String.singleton c

def jsonStr (s : String) : String :=
  "\"" ++ String.join (s.data.map jsonEscapeChar) ++ "\""

/-- `json.dumps(result, indent=2, ensure_ascii=False)` on the result
dictionary: keys in insertion order, two-space indentation, `None`
rendered as `null`. -/
def jsonDumps (r : DownloadResult) : String :=
  "\x7b\n  \"video_path\": " ++ jsonStr r.video_path ++
  ",\n  \"subtitle_path\": " ++
    (match r.subtitle_path with
     | some s => jsonStr s
     | none => "null") ++
  ",\n  \"title\": " ++ jsonStr r.title ++
  ",\n  \"duration\": " ++ toString r.duration ++
  ",\n  \"file_size\": " ++ toString r.file_size ++
  ",\n  \"video_id\": " ++ jsonStr r.video_id ++
  "\n\x7d"

/-- The usage message printed when no URL argument is supplied. -/
def usageLines : List String :=
  ["Usage: python download_video.py <youtube_url> [output_dir]",
   "\nExample:",
   "  python download_video.py https://youtube.com/watch?v=Ckt1cj0xjRM",
   "  python download_video.py https://youtube.com/watch?v=Ckt1cj0xjRM ~/Downloads"]

/-- The CLI entry point `main()`: with no URL argument print the usage
and exit 1; otherwise run `download_video` with the optional second
argument as output directory, print the JSON result block and exit 0 on
success, or print the error and exit 1.  Returns the exit code and the
lines `main` itself prints. -/
def mainRun (env : Env) (argv : List String) : Nat × List String :=
  match argv with
  | _prog :: url :: rest =>
    let output_dir := rest.head?
    match download_video env url output_dir with
    | (.ok result, _eff) =>
      (0, ["\n" ++ String.mk (List.replicate 60 '='),
           "下载结果 (JSON):",
           jsonDumps result])
    | (.error e, _eff) =>
      (1, ["\n❌ 错误: " ++ e.msg])
  | _ => (1, usageLines)

/-- The simpler subtitle-discovery function described in the refinement
claim C10 (written from the claim's words, to be compared with the
loop transcribed from the source): check `<id>.en.vtt` first, then
`<id>.vtt`, and return the first existing path, or none. -/
def findSubtitleSpec (fs : FS) (vp : PyPath) : Option PyPath :=
  if fs.fileExists (vp.withSuffix ".en.vtt").toStr then some (vp.withSuffix ".en.vtt")
  else if fs.fileExists (vp.withSuffix ".vtt").toStr then some (vp.withSuffix ".vtt")
  else none

/-- Concrete metadata record for witness runs. -/
def infoW : Info := ⟨some "Title", some 10, some "vid"⟩

/-- Concrete prepared video path for witness runs. -/
def preparedW : PyPath := ⟨"/out", "vid", ".mp4"⟩

/-- Concrete post-download filesystem: the video file exists, no
subtitle file does. -/
def fsDoneW : FS := ⟨[("/out/vid.mp4", 1234)], ["/out"]⟩

/-- Retrieval oracle for a fully successful witness run. -/
def retrW : RetrEnv := ⟨.ok infoW, .ok infoW, preparedW, fsDoneW⟩

/-- Environment for a successful witness run. -/
def envOkW : Env := ⟨fun _ => true, "/cwd", ⟨[], []⟩, retrW⟩

/-- Environment whose URL validation rejects every URL. -/
def envReject : Env := ⟨fun _ => false, "/cwd", ⟨[], []⟩, retrW⟩

/-- Retrieval oracle whose probe raises a sign-in error. -/
def retrFailW : RetrEnv :=
  ⟨.error "Sign in to confirm you are not a bot", .ok infoW, preparedW, fsDoneW⟩

/-- Environment whose retrieval probe raises a sign-in error. -/
def envFailW : Env := ⟨fun _ => true, "/cwd", ⟨[], []⟩, retrFailW⟩

/-- Retrieval oracle that reports success but leaves no file on disk. -/
def retrNoFileW : RetrEnv := ⟨.ok infoW, .ok infoW, preparedW, ⟨[], []⟩⟩

/-- Environment where the download reports success but the video file is
absent. -/
def envNoFileW : Env := ⟨fun _ => true, "/cwd", ⟨[], []⟩, retrNoFileW⟩

/-- Starting filesystem containing a `cookies.txt` in the output
directory `/out`. -/
def fsCookiesW : FS := ⟨[("/out/cookies.txt", 5)], []⟩

/-- Environment with a `cookies.txt` in the output directory. -/
def envCookieW : Env := ⟨fun _ => true, "/cwd", fsCookiesW, retrW⟩

/-- Adding a directory leaves the file map, hence file existence,
untouched. -/
theorem FS.fileExists_addDir (fs : FS) (d p : String) :
    (fs.addDir d).fileExists p = fs.fileExists p := rfl

/-- C1: if the URL fails validation, `download_video` fails with the
`InvalidURL` error carrying that URL, no directory is created, no
options are built, and the filesystem is untouched — the validation
check precedes every side effect. -/
theorem download_video_invalidURL (env : Env) (url : String) (od : Option String)
    (h : env.validate_url url = false) :
    download_video env url od =
      (.error (.invalidURL url),
       { dirsEnsured := [], opts := none, guidance := [], fs := env.fs }) := by
  simp [download_video, h]

/-- Witness for C1 at a concrete rejecting environment. -/
theorem download_video_invalidURL_witness :
    download_video envReject "https://bad.example" none =
      (.error (.invalidURL "https://bad.example"),
       { dirsEnsured := [], opts := none, guidance := [], fs := envReject.fs }) :=
  download_video_invalidURL envReject "https://bad.example" none rfl

/-- C10: the subtitle-discovery loop transcribed from the source, with
its redundant fallback re-check of `<id>.en.vtt`, computes the same
result as the simple first-match function for every filesystem and
video path. -/
theorem findSubtitle_eq_spec (fs : FS) (vp : PyPath) :
    findSubtitle fs vp = findSubtitleSpec fs vp := by
  cases hen : fs.fileExists (vp.withSuffix ".en.vtt").toStr <;>
    cases hvt : fs.fileExists (vp.withSuffix ".vtt").toStr <;>
      simp only [PyPath.withSuffix] at hen hvt <;>
      simp [findSubtitle, findSubtitleSpec, subtitleLoop, subtitle_exts,
        subtitleStep, PyPath.withSuffix, hen, hvt]

/-- C8: subtitle discovery tries `<id>.en.vtt` then `<id>.vtt`, in that
order, and binds `subtitle_path` to the first pattern whose file exists,
stopping at the first match; if neither exists the result is none. -/
theorem findSubtitle_first_match (fs : FS) (vp : PyPath) :
    (fs.fileExists (vp.withSuffix ".en.vtt").toStr = true →
      findSubtitle fs vp = some (vp.withSuffix ".en.vtt")) ∧
    (fs.fileExists (vp.withSuffix ".en.vtt").toStr = false →
      fs.fileExists (vp.withSuffix ".vtt").toStr = true →
      findSubtitle fs vp = some (vp.withSuffix ".vtt")) ∧
    (fs.fileExists (vp.withSuffix ".en.vtt").toStr = false →
      fs.fileExists (vp.withSuffix ".vtt").toStr = false →
      findSubtitle fs vp = none) := by
  refine ⟨fun hen => ?_, fun hen hvt => ?_, fun hen hvt => ?_⟩ <;>
    simp only [PyPath.withSuffix] at * <;>
    simp [findSubtitle, subtitleLoop, subtitle_exts, subtitleStep,
      PyPath.withSuffix, *]

/-- Witness for C8: on a concrete filesystem holding only `a.vtt`, the
loop returns `a.vtt` (the second pattern), and after adding `a.en.vtt`
it returns `a.en.vtt`. -/
theorem findSubtitle_first_match_witness :
    findSubtitle ⟨[("/d/a.vtt", 1)], []⟩ ⟨"/d", "a", ".mp4"⟩ =
      some ⟨"/d", "a", ".vtt"⟩ ∧
    findSubtitle ⟨[("/d/a.en.vtt", 1), ("/d/a.vtt", 1)], []⟩ ⟨"/d", "a", ".mp4"⟩ =
      some ⟨"/d", "a", ".en.vtt"⟩ :=
  ⟨(findSubtitle_first_match ⟨[("/d/a.vtt", 1)], []⟩ ⟨"/d", "a", ".mp4"⟩).2.1
      (by decide) (by decide),
   (findSubtitle_first_match ⟨[("/d/a.en.vtt", 1), ("/d/a.vtt", 1)], []⟩
      ⟨"/d", "a", ".mp4"⟩).1 (by decide)⟩

/-- Whatever the retrieval outcome, a validated run hands `YoutubeDL`
the options built by `mkOpts` on the post-creation filesystem. -/
theorem download_video_opts (env : Env) (url : String) (od : Option String)
    (h : env.validate_url url = true) :
    (download_video env url od).2.opts =
      some (mkOpts (env.fs.addDir (od.getD env.cwd)) env.cwd (od.getD env.cwd)) := by
  cases od <;>
    simp [download_video, h, ensure_directory, Option.getD] <;>
      cases tryBody env <;> simp

/-- C2: the cookie source handed to the retrieval library is chosen in
order: a `cookies.txt` in the output directory, else a `cookies.txt` in
the current working directory, else the Chrome browser-cookie fallback;
whenever the output directory has a `cookies.txt`, the cookie-file
option is set and the browser fallback is not. -/
theorem download_video_cookie_policy (env : Env) (url : String) (od : Option String)
    (h : env.validate_url url = true) :
    ∃ o : YdlOpts, (download_video env url od).2.opts = some o ∧
      (env.fs.fileExists (pathJoin (od.getD env.cwd) "cookies.txt") = true →
        o.cookiefile = some (pathJoin (od.getD env.cwd) "cookies.txt") ∧
        o.cookiesfrombrowser = none) ∧
      (env.fs.fileExists (pathJoin (od.getD env.cwd) "cookies.txt") = false →
        env.fs.fileExists (pathJoin env.cwd "cookies.txt") = true →
        o.cookiefile = some (pathJoin env.cwd "cookies.txt") ∧
        o.cookiesfrombrowser = none) ∧
      (env.fs.fileExists (pathJoin (od.getD env.cwd) "cookies.txt") = false →
        env.fs.fileExists (pathJoin env.cwd "cookies.txt") = false →
        o.cookiefile = none ∧ o.cookiesfrombrowser = some ["chrome"]) := by
  refine ⟨mkOpts (env.fs.addDir (od.getD env.cwd)) env.cwd (od.getD env.cwd),
    download_video_opts env url od h, ?_, ?_, ?_⟩ <;>
    intro hOut <;>
    simp [mkOpts, cookieChoice, FS.fileExists_addDir, hOut]

/-- Witness for C2: with a `cookies.txt` present in the output directory
`/out`, the options select that cookie file and no browser fallback. -/
theorem download_video_cookie_policy_witness :
    ∃ o : YdlOpts,
      (download_video envCookieW "https://youtube.com/watch?v=x" (some "/out")).2.opts =
        some o ∧
      o.cookiefile = some "/out/cookies.txt" ∧ o.cookiesfrombrowser = none := by
  obtain ⟨o, ho, h1, _h2, _h3⟩ :=
    download_video_cookie_policy envCookieW "https://youtube.com/watch?v=x"
      (some "/out") rfl
  exact ⟨o, ho, h1 (by decide)⟩

/-- A successful `tryBody` run returns a video path that exists on the
post-download filesystem, with `file_size` equal to its on-disk size. -/
theorem tryBody_ok_video (env : Env) (r : DownloadResult) (fs2 : FS)
    (h : tryBody env = .ok (r, fs2)) :
    fs2.fileExists r.video_path = true ∧ r.file_size = fs2.sizeOf r.video_path := by
  simp only [tryBody] at h
  split at h
  · simp at h
  · split at h
    · simp at h
    · split at h
      · simp at h
      · rename_i hex
        rw [Except.ok.injEq, Prod.mk.injEq] at h
        obtain ⟨hr, hfs⟩ := h
        have hex2 : env.retr.fsAfter.fileExists env.retr.prepared.toStr = true := by
          revert hex
          cases env.retr.fsAfter.fileExists env.retr.prepared.toStr <;> simp
        subst hfs
        subst hr
        exact ⟨hex2, by simp [hex2]⟩

/-- C4: every successful `download_video` run returns a `video_path`
that exists on the filesystem at completion, and a `file_size` equal to
the byte size the filesystem reports for that file. -/
theorem download_video_success_size (env : Env) (url : String) (od : Option String)
    (r : DownloadResult) (eff : Effects)
    (h : download_video env url od = (.ok r, eff)) :
    eff.fs.fileExists r.video_path = true ∧
    r.file_size = eff.fs.sizeOf r.video_path := by
  simp only [download_video] at h
  split at h
  · simp at h
  · split at h
    · rename_i result fs2 heq
      rw [Prod.mk.injEq, Except.ok.injEq] at h
      obtain ⟨hr, heff⟩ := h
      have hmain := tryBody_ok_video env result fs2 heq
      rw [hr] at hmain
      rw [← heff]
      exact hmain
    · simp at h

/-- Witness for C4 at a concrete successful run. -/
theorem download_video_success_size_witness :
    (download_video envOkW "https://youtube.com/watch?v=x" (some "/out")).2.fs.fileExists
        "/out/vid.mp4" = true ∧
    (1234 : Nat) =
      (download_video envOkW "https://youtube.com/watch?v=x" (some "/out")).2.fs.sizeOf
        "/out/vid.mp4" := by
  have h := download_video_success_size envOkW "https://youtube.com/watch?v=x"
    (some "/out")
    { video_path := "/out/vid.mp4", subtitle_path := none, title := "Title",
      duration := 10, file_size := 1234, video_id := "vid" }
    { dirsEnsured := ["/out"],
      opts := some (mkOpts (envOkW.fs.addDir "/out") "/cwd" "/out"),
      guidance := [], fs := fsDoneW } (by rfl)
  exact h

/-- Helper: when neither candidate subtitle file exists, the discovery
loop yields none. -/
theorem findSubtitle_none_of_missing (fs : FS) (vp : PyPath)
    (hen : fs.fileExists (vp.withSuffix ".en.vtt").toStr = false)
    (hvt : fs.fileExists (vp.withSuffix ".vtt").toStr = false) :
    findSubtitle fs vp = none := by
  simp only [PyPath.withSuffix] at hen hvt
  simp [findSubtitle, subtitleLoop, subtitle_exts, subtitleStep,
    PyPath.withSuffix, hen, hvt]

/-- C3: when retrieval succeeds and the video file exists but no
subtitle file matching any tried pattern exists, `download_video` still
returns a successful result whose `subtitle_path` is absent. -/
theorem download_video_no_subtitle_success (env : Env) (url : String)
    (od : Option String) (i j : Info)
    (hv : env.validate_url url = true)
    (hp : env.retr.probe = .ok i)
    (hd : env.retr.download = .ok j)
    (hvid : env.retr.fsAfter.fileExists env.retr.prepared.toStr = true)
    (hs1 : env.retr.fsAfter.fileExists
      (env.retr.prepared.withSuffix ".en.vtt").toStr = false)
    (hs2 : env.retr.fsAfter.fileExists
      (env.retr.prepared.withSuffix ".vtt").toStr = false) :
    ∃ (r : DownloadResult) (eff : Effects),
      download_video env url od = (.ok r, eff) ∧ r.subtitle_path = none := by
  have hsub : findSubtitle env.retr.fsAfter env.retr.prepared = none :=
    findSubtitle_none_of_missing _ _ hs1 hs2
  have htb : tryBody env =
      .ok ({ video_path := env.retr.prepared.toStr, subtitle_path := none,
             title := i.title.getD "Unknown", duration := i.duration.getD 0,
             file_size := env.retr.fsAfter.sizeOf env.retr.prepared.toStr,
             video_id := i.id.getD "unknown" }, env.retr.fsAfter) := by
    simp [tryBody, hp, hd, hvid, hsub]
  refine ⟨{ video_path := env.retr.prepared.toStr, subtitle_path := none,
            title := i.title.getD "Unknown", duration := i.duration.getD 0,
            file_size := env.retr.fsAfter.sizeOf env.retr.prepared.toStr,
            video_id := i.id.getD "unknown" },
          { dirsEnsured := [od.getD env.cwd],
            opts := some (mkOpts (env.fs.addDir (od.getD env.cwd)) env.cwd
              (od.getD env.cwd)),
            guidance := [], fs := env.retr.fsAfter }, ?_, rfl⟩
  cases od <;> simp [download_video, hv, htb, ensure_directory, Option.getD]

/-- Witness for C3 at a concrete run whose output directory holds the
video but no subtitle file. -/
theorem download_video_no_subtitle_success_witness :
    ∃ (r : DownloadResult) (eff : Effects),
      download_video envOkW "https://youtube.com/watch?v=x" (some "/out") =
        (.ok r, eff) ∧ r.subtitle_path = none :=
  download_video_no_subtitle_success envOkW "https://youtube.com/watch?v=x"
    (some "/out") infoW infoW rfl rfl rfl (by decide) (by decide) (by decide)

/-- C5: when the retrieval invocation completes without raising but the
expected video file is absent from disk, `download_video` fails with the
`DownloadFailed` error stating the video file was not found. -/
theorem download_video_missing_file_error (env : Env) (url : String)
    (od : Option String) (i j : Info)
    (hv : env.validate_url url = true)
    (hp : env.retr.probe = .ok i)
    (hd : env.retr.download = .ok j)
    (hmiss : env.retr.fsAfter.fileExists env.retr.prepared.toStr = false) :
    (download_video env url od).1 =
      .error (.downloadFailed "Video file not found after download") := by
  have htb : tryBody env = .error "Video file not found after download" := by
    simp [tryBody, hp, hd, hmiss]
  cases od <;> simp [download_video, hv, htb]

/-- Witness for C5 at a concrete run that leaves no file on disk. -/
theorem download_video_missing_file_error_witness :
    (download_video envNoFileW "https://youtube.com/watch?v=x" (some "/out")).1 =
      .error (.downloadFailed "Video file not found after download") :=
  download_video_missing_file_error envNoFileW "https://youtube.com/watch?v=x"
    (some "/out") infoW infoW rfl rfl rfl (by decide)

/-- C6: when the retrieval block fails with message `m`, the error is
re-raised unchanged as `DownloadFailed m`; remediation guidance is
printed exactly when `m` contains a known substring, and the guidance
text includes the words "cookies.txt". -/
theorem download_video_error_guidance (env : Env) (url : String)
    (od : Option String) (m : String)
    (hv : env.validate_url url = true)
    (hfail : env.retr.probe = .error m ∨
      ((∃ i, env.retr.probe = .ok i) ∧ env.retr.download = .error m)) :
    (download_video env url od).1 = .error (.downloadFailed m) ∧
    (download_video env url od).2.guidance =
      (if isKnownError m then guidanceLines (od.getD env.cwd) else []) ∧
    ∃ l ∈ guidanceLines (od.getD env.cwd), strContains l "cookies.txt" = true := by
  have htb : tryBody env = .error m := by
    rcases hfail with hp | ⟨⟨i, hp⟩, hd⟩
    · simp [tryBody, hp]
    · simp [tryBody, hp, hd]
  refine ⟨?_, ?_, ?_⟩
  · cases od <;> simp [download_video, hv, htb]
  · cases od <;> simp [download_video, hv, htb, ensure_directory, Option.getD]
  · exact ⟨"   c. 点击插件导出 cookies.txt", by simp [guidanceLines], by decide⟩

/-- Witness for C6 at a concrete probe failure whose message contains
"Sign in to confirm". -/
theorem download_video_error_guidance_witness :
    (download_video envFailW "https://youtube.com/watch?v=x" (some "/out")).1 =
      .error (.downloadFailed "Sign in to confirm you are not a bot") ∧
    (download_video envFailW "https://youtube.com/watch?v=x" (some "/out")).2.guidance =
      (if isKnownError "Sign in to confirm you are not a bot" then
        guidanceLines "/out" else []) ∧
    ∃ l ∈ guidanceLines "/out", strContains l "cookies.txt" = true :=
  download_video_error_guidance envFailW "https://youtube.com/watch?v=x"
    (some "/out") "Sign in to confirm you are not a bot" rfl (.inl rfl)

/-- C9: the CLI entry point prints the usage and exits 1 when no URL
argument is supplied; prints the error and exits 1 whenever
`download_video` raises, for any reason; and on success exits 0 after
printing the result as indent-2 pretty-printed JSON in which non-ASCII
characters pass through literally. -/
theorem main_cli_exit_codes (env : Env) (prog url : String) (rest : List String) :
    mainRun env [prog] = (1, usageLines) ∧
    (∀ (e : DlError) (eff : Effects),
      download_video env url rest.head? = (.error e, eff) →
      mainRun env (prog :: url :: rest) = (1, ["\n❌ 错误: " ++ e.msg])) ∧
    (∀ (r : DownloadResult) (eff : Effects),
      download_video env url rest.head? = (.ok r, eff) →
      mainRun env (prog :: url :: rest) =
        (0, ["\n" ++ String.mk (List.replicate 60 '='),
             "下载结果 (JSON):", jsonDumps r])) ∧
    (∀ c : Char, 128 ≤ c.toNat → jsonEscapeChar c = String.singleton c) := by
  refine ⟨rfl, ?_, ?_, ?_⟩
  · intro e eff h
    simp [mainRun, h]
  · intro r eff h
    simp [mainRun, h]
  · intro c hc
    have h1 : ¬ c = '\\' := by rintro rfl; revert hc; decide
    have h2 : ¬ c = '"' := by rintro rfl; revert hc; decide
    have h3 : ¬ c = '\n' := by rintro rfl; revert hc; decide
    have h4 : ¬ c = '\t' := by rintro rfl; revert hc; decide
    have h5 : ¬ c = '\r' := by rintro rfl; revert hc; decide
    have h6 : ¬ c = '\x08' := by rintro rfl; revert hc; decide
    have h7 : ¬ c = '\x0c' := by rintro rfl; revert hc; decide
    have h8 : ¬ c.toNat < 32 := by omega
    simp [jsonEscapeChar, h1, h2, h3, h4, h5, h6, h7, h8]

/-- Witness for C9: a missing URL argument yields the usage and exit 1,
and a failing `download_video` yields the error line and exit 1. -/
theorem main_cli_exit_codes_witness :
    mainRun envReject ["prog"] = (1, usageLines) ∧
    mainRun envReject ["prog", "https://bad.example2"] =
      (1, ["\n❌ 错误: " ++ (DlError.invalidURL "https://bad.example2").msg]) := by
  obtain ⟨h1, h2, _h3, _h4⟩ :=
    main_cli_exit_codes envReject "prog" "https://bad.example2" []
  exact ⟨h1, h2 (.invalidURL "https://bad.example2")
    { dirsEnsured := [], opts := none, guidance := [], fs := envReject.fs } rfl⟩
